import Mathlib

/-!
Verification of the Puch web-research MCP server (src/main.py, src/tool.py,
src/server.py) against its natural-language specification.

The tool handlers are shallowly embedded as total Lean functions.  Outbound
HTTP traffic is modelled by an explicit "outcome" argument standing for the
response (or exception) of the single request a handler may issue; the
handlers return their structured result dictionary together with a Boolean
recording whether control reached the outbound request.  Strings are
modelled over their character lists (ASCII fragment of Python semantics,
which covers every string the claims mention).
-/

namespace WebResearch

/-- The whitespace characters recognised by Python `str.strip()` (ASCII
fragment of `str.isspace`). -/
def pyIsSpace (c : Char) : Bool :=
  c = ' ' || c = '\t' || c = '\n' || c = '\r' || c = '\x0b' || c = '\x0c'

/-- Python `str.strip()` on the character list: drop whitespace from both
ends. -/
def pyStripList (l : List Char) : List Char :=
  ((l.dropWhile pyIsSpace).reverse.dropWhile pyIsSpace).reverse

/-- Python `str.strip()`. -/
def pyStrip (s : String) : String :=
  ⟨pyStripList s.data⟩

/-- Python `str.lower()` (ASCII fragment). -/
def pyLower (s : String) : String :=
  ⟨s.data.map Char.toLower⟩

/-- Python slicing `s[:n]`. -/
def pySlice (s : String) (n : Nat) : String :=
  ⟨s.data.take n⟩

/-- Python `sep.join(parts)`. -/
def joinWith (sep : String) : List String → String
  | [] => ""
  | [s] => s
  | s :: rest => s ++ sep ++ joinWith sep rest

/-- Helper for `pyTitle`: the Boolean records whether the previous character
was alphabetic. -/
def pyTitleList (prevAlpha : Bool) : List Char → List Char
  | [] => []
  | c :: rest =>
    if c.isAlpha then
      (if prevAlpha then c.toLower else c.toUpper) :: pyTitleList true rest
    else
      c :: pyTitleList false rest

/-- Python `str.title()` (ASCII fragment): upper-case each alphabetic
character that starts a run of letters, lower-case the other letters. -/
def pyTitle (s : String) : String :=
  ⟨pyTitleList false s.data⟩

/-- Python `str.replace('www.', '')` on the character list: remove every
(leftmost-first, non-overlapping) occurrence of `www.`. -/
def replaceWwwList : List Char → List Char
  | 'w' :: 'w' :: 'w' :: '.' :: rest => replaceWwwList rest
  | c :: rest => c :: replaceWwwList rest
  | [] => []

/-- Characters allowed in a URL scheme by `urllib.parse` (after the leading
letter): letters, digits, `+`, `-`, `.`. -/
def schemeChar (c : Char) : Bool :=
  c.isAlphanum || c = '+' || c = '-' || c = '.'

/-- Model of `urllib.parse.urlparse(url).netloc` on the character list: the network
location is present only when the URL starts with `//` or with a valid
`scheme:` (a letter followed by scheme characters) immediately followed by
`//`; it extends to the next `/`, `?` or `#`. -/
def netlocList (l : List Char) : List Char :=
  let body : Option (List Char) :=
    if l.take 2 = ['/', '/'] then some (l.drop 2)
    else
      let pre := l.takeWhile schemeChar
      match l.drop pre.length with
      | ':' :: r =>
        if (match pre with | c :: _ => c.isAlpha | [] => false) && r.take 2 = ['/', '/'] then
          some (r.drop 2)
        else none
      | _ => none
  match body with
  | some b => b.takeWhile (fun c => !(c = '/' || c = '?' || c = '#'))
  | none => []

/-- Model of `urllib.parse.urlparse(url).netloc`. -/
def netloc (url : String) : String :=
  ⟨netlocList url.data⟩

/-- The site label computed by `perform_web_research` (src/main.py line 94):
`urlparse(link).netloc.replace('www.', '').split('.')[0].title()`. -/
def siteOf (link : String) : String :=
  ⟨pyTitleList false ((replaceWwwList (netlocList link.data)).takeWhile (fun c => c ≠ '.'))⟩

/-- Python substring membership `pat in s` on character lists. -/
def listHas (pat : List Char) : List Char → Bool
  | [] => pat.isEmpty
  | c :: rest => pat.isPrefixOf (c :: rest) || listHas pat rest

/-- Python substring membership `pat in s`. -/
def containsSub (pat s : String) : Bool :=
  listHas pat.data s.data

/-! ## Auth gate (src/main.py lines 26-35, duplicated in src/tool.py) -/

/-- Model of `mcp.server.auth.provider.AccessToken`, restricted to the fields this
server constructs. -/
structure AccessToken where
  token : String
  client_id : String
  scopes : List String
  expires_at : Option Nat
deriving DecidableEq

/-- Model of `SimpleBearerAuthProvider.load_access_token`: the first argument is the
configured secret (`self.token`), the second the presented bearer token. -/
def load_access_token (secret : String) (token : String) : Option AccessToken :=
  if token = secret then
    some { token := token, client_id := "unknown", scopes := [], expires_at := none }
  else
    none

/-! ## Search tool (src/main.py lines 65-113) -/

/-- One entry of the provider's `organic` array; each field is optional
because the JSON object may lack the key (a missing `link` or `title`
raises `KeyError` in the loop body and the entry is skipped). -/
structure SearchResult where
  title : Option String
  link : Option String
  snippet : Option String
deriving DecidableEq

/-- The decoded JSON body of a successful provider response; `organic = none`
models the `"organic"` key being absent. -/
structure SearchData where
  organic : Option (List SearchResult)
deriving DecidableEq

/-- The dictionary a tool handler returns: always a `message`, plus the raw
`results_data` list on the successful search path. -/
structure ToolResult where
  message : String
  results_data : Option (List SearchResult)
deriving DecidableEq

/-- The outcome of the single outbound POST issued by the search tool:
a decoded 2xx response, an `httpx.HTTPStatusError` raised by
`raise_for_status` (carrying `response.status_code` and `response.text`),
or any other exception (carrying its `str()`). -/
inductive SearchOutcome where
  | success (data : SearchData)
  | statusExc (status : Nat) (body : String)
  | otherExc (err : String)

/-- Python truthiness test `not SERPER_API_KEY`: the key is missing when the
environment variable is unset (`none`) or empty. -/
def keyMissing : Option String → Bool
  | none => true
  | some k => k = ""

/-- The input check `not query or not query.strip()`. -/
def queryEmpty (q : String) : Bool :=
  q = "" || pyStrip q = ""

/-- Whether control reaches the outbound POST: both early-return guards must
fall through. -/
def searchRequested (apiKey : Option String) (q : String) : Bool :=
  !keyMissing apiKey && !queryEmpty q

/-- The guard `"organic" not in data or not data["organic"]`. -/
def organicMissing (d : SearchData) : Bool :=
  match d.organic with
  | none => true
  | some l => l.isEmpty

/-- Model of `data["organic"][0].get('snippet', 'No summary available.')`. -/
def leadSnippet (r : SearchResult) : String :=
  r.snippet.getD "No summary available."

/-- The f-string `f"- **{title}** (found on {site})"`. -/
def bulletLine (title site : String) : String :=
  "- **" ++ title ++ "** (found on " ++ site ++ ")"

/-- The `for result in data["organic"]` loop building `sources`: an entry
whose `link` or `title` key is missing raises inside the `try` and is
skipped by `except: continue`. -/
def sourceLinesOf : List SearchResult → List String
  | [] => []
  | r :: rest =>
    match r.link, r.title with
    | some l, some t => bulletLine t (siteOf l) :: sourceLinesOf rest
    | _, _ => sourceLinesOf rest

/-- The per-entry body of the `sources` loop as a partial map. -/
def bulletOf (r : SearchResult) : Option String :=
  match r.link, r.title with
  | some l, some t => some (bulletLine t (siteOf l))
  | _, _ => none

/-- The f-string `f"No results found for '{query}'."`. -/
def noResultsMsg (q : String) : String :=
  "No results found for \x27" ++ q ++ "\x27."

/-- The composed `summary` f-string (src/main.py lines 99-106), applied to
the query, the first organic result and the whole organic list. -/
def summaryOf (query : String) (r0 : SearchResult) (rs : List SearchResult) : String :=
  "Based on my research for **\x27" ++ query ++ "\x27**, here is a summary:\n\n" ++
    leadSnippet r0 ++ "\n\n--- \n### Where to Learn More\nTop sources:\n" ++
    joinWith "\n" (sourceLinesOf rs)

/-- Model of `perform_web_research` (src/main.py lines 66-113).  The first component
of the result is the returned dictionary; the second records whether the
outbound POST to the search provider was issued. -/
def perform_web_research (apiKey : Option String) (query : String)
    (outcome : SearchOutcome) : ToolResult × Bool :=
  if keyMissing apiKey then
    (⟨"Error: SERPER_API_KEY is not set.", none⟩, false)
  else if queryEmpty query then
    (⟨"Error: Search query cannot be empty.", none⟩, false)
  else
    match outcome with
    | .success data =>
      match data.organic with
      | none => (⟨noResultsMsg query, none⟩, true)
      | some [] => (⟨noResultsMsg query, none⟩, true)
      | some (r0 :: rest) =>
        (⟨summaryOf query r0 (r0 :: rest), some (r0 :: rest)⟩, true)
    | .statusExc st body =>
      (⟨"Search API Error (" ++ toString st ++ "): " ++ body, none⟩, true)
    | .otherExc e =>
      (⟨"An unexpected search error occurred: " ++ e, none⟩, true)

/-! ## Spec-worded site-label derivation (for comparison with `siteOf`) -/

/-- Modelled from the spec's words for claim C3: strip only a LEADING
`www.` from the host, then take the first dot-delimited label and
title-case it.  This is the derivation the claim states; it is compared
against `siteOf`, which embeds the source. -/
def claimStripLeadingWww (l : List Char) : List Char :=
  if l.take 4 = ['w', 'w', 'w', '.'] then l.drop 4 else l

/-- Modelled from the spec's words for claim C3: the site label obtained by
stripping a leading `www.` only. -/
def claimSiteOf (link : String) : String :=
  ⟨pyTitleList false ((claimStripLeadingWww (netlocList link.data)).takeWhile (fun c => c ≠ '.'))⟩

/-- Modelled from the spec's words for claim C3: the bullet for one result
under the claim's site-label derivation. -/
def claimBulletOf (r : SearchResult) : Option String :=
  match r.link, r.title with
  | some l, some t => some (bulletLine t (claimSiteOf l))
  | _, _ => none

/-- Modelled from the spec's words for claim C3: the summary message as the
claim describes it (identical composition, but site labels strip only a
leading `www.`). -/
def claimSummaryOf (query : String) (r0 : SearchResult) (rs : List SearchResult) : String :=
  "Based on my research for **\x27" ++ query ++ "\x27**, here is a summary:\n\n" ++
    leadSnippet r0 ++ "\n\n--- \n### Where to Learn More\nTop sources:\n" ++
    joinWith "\n" (rs.filterMap claimBulletOf)

/-! ## Scrape tool (src/main.py lines 115-151) -/

/-- The parsed DOM: an element with a tag and children, or a text node.
A document is a list of top-level nodes. -/
inductive Node where
  | text (s : String)
  | elem (tag : String) (children : List Node)

/-- The tags decomposed before extraction: `soup(["script", "style", "nav",
"footer"])`. -/
def bannedTags : List String := ["script", "style", "nav", "footer"]

mutual
/-- Model of `decompose()` applied to banned elements: a banned element is removed with its
whole subtree, any other node is kept with its children cleaned. -/
def cleanNode : Node → Option Node
  | .text s => some (.text s)
  | .elem t cs => if t ∈ bannedTags then none else some (.elem t (cleanList cs))

/-- The map of `cleanNode` over a child list, dropping removed nodes. -/
def cleanList : List Node → List Node
  | [] => []
  | n :: ns =>
    match cleanNode n with
    | some m => m :: cleanList ns
    | none => cleanList ns
end

mutual
/-- Model of `get_text()`: concatenation of all text descendants in document order. -/
def getTextNode : Node → String
  | .text s => s
  | .elem _ cs => getTextList cs

/-- The concatenation of `getTextNode` over a child list. -/
def getTextList : List Node → String
  | [] => ""
  | n :: ns => getTextNode n ++ getTextList ns
end

mutual
/-- Model of `find_all('p')` starting at one node: every descendant-or-self element
tagged `p`, in document order. -/
def findPsNode : Node → List Node
  | .text _ => []
  | .elem t cs => (if t = "p" then [Node.elem t cs] else []) ++ findPsList cs

/-- Model of `find_all('p')` over a document (list of top-level nodes). -/
def findPsList : List Node → List Node
  | [] => []
  | n :: ns => findPsNode n ++ findPsList ns
end

mutual
/-- Whether some descendant-or-self element carries the given tag. -/
def hasTagNode (tag : String) : Node → Bool
  | .text _ => false
  | .elem t cs => t = tag || hasTagList tag cs

/-- The disjunction of `hasTagNode` over a document. -/
def hasTagList (tag : String) : List Node → Bool
  | [] => false
  | n :: ns => hasTagNode tag n || hasTagList tag ns
end

/-- The extraction pipeline of `scrape_webpage_content` (src/main.py lines
134-141): decompose banned elements, collect every `<p>`, join their texts
with single spaces. -/
def extractText (doc : List Node) : String :=
  joinWith " " ((findPsList (cleanList doc)).map getTextNode)

/-- The content-type gate: `"text/html" in ct or "text/plain" in ct`
(applied to the lower-cased header value). -/
def contentTypeOk (ct : String) : Bool :=
  containsSub "text/html" ct || containsSub "text/plain" ct

/-- The dictionary returned by the scrape tool: always a `message`, plus
`full_text` on the successful path. -/
structure ScrapeResult where
  message : String
  full_text : Option String
deriving DecidableEq

/-- The outcome of the single outbound GET issued by the scrape tool: a 2xx
response with its declared `content-type` header and parsed body, an
`httpx.RequestError` (network fault, carrying its `str()`), or any other
exception — including `httpx.HTTPStatusError`, which is not a
`RequestError` — carrying its `str()`. -/
inductive ScrapeOutcome where
  | success (contentType : String) (doc : List Node)
  | requestExc (err : String)
  | otherExc (err : String)

/-- Model of `scrape_webpage_content` (src/main.py lines 116-151).  On a successful
response the header lookup `headers.get("content-type", "").lower()` is
modelled by `pyLower` of the declared content type. -/
def scrape_webpage_content : ScrapeOutcome → ScrapeResult
  | .requestExc e => ⟨"Network error: " ++ e, none⟩
  | .otherExc e => ⟨"Scrape error: " ++ e, none⟩
  | .success ct doc =>
    let c := pyLower ct
    if !contentTypeOk c then
      ⟨"Error: URL points to \x27" ++ c ++ "\x27, not a webpage.", none⟩
    else
      let text := extractText doc
      if pyStrip text = "" then
        ⟨"Visited page but found no main text content.", none⟩
      else
        ⟨"Extracted text:", some (pySlice (pyStrip text) 5000)⟩

/-! ## Concrete inputs used by the claims -/

/-- The organic list of the spec's C3 example. -/
def c3Organic : List SearchResult :=
  [⟨some "A", some "https://www.foo.com/x", some "S1"⟩,
   ⟨some "B", some "https://bar.org/y", some "S2"⟩]

/-- A result whose host contains a non-leading `www.`: it separates the
source's `replace('www.', '')` from the spec's "strip a leading www.". -/
def c3CounterResult : SearchResult :=
  ⟨some "A", some "https://awww.foo.com/x", some "S1"⟩

/-- The parse tree of the spec's C6 example
`<html><body><script>x</script><p>Hello</p><p>World</p></body></html>`. -/
def c6ExampleDoc : List Node :=
  [.elem "html" [.elem "body"
    [.elem "script" [.text "x"], .elem "p" [.text "Hello"], .elem "p" [.text "World"]]]]

/-- A page with paragraph text longer than the 5000-character cap. -/
def longText : String := ⟨List.replicate 5001 'a'⟩

/-- A document whose single paragraph holds `longText`. -/
def longDoc : List Node := [.elem "p" [.text longText]]

/-- A page with no `<p>` element at all. -/
def noParagraphDoc : List Node := [.elem "html" [.elem "body" [.text "hi"]]]

/-! ## Helper lemmas -/

/-- Mutual induction over the DOM and child lists. -/
theorem node_mutual_ind (P : Node → Prop) (Q : List Node → Prop)
    (h1 : ∀ s, P (Node.text s))
    (h2 : ∀ t cs, Q cs → P (Node.elem t cs))
    (h3 : Q [])
    (h4 : ∀ n ns, P n → Q ns → Q (n :: ns)) :
    (∀ n, P n) ∧ (∀ l, Q l) := by
  have hp : ∀ n, P n := fun n => @Node.rec P Q h1 h2 h3 h4 n
  refine ⟨hp, fun l => ?_⟩
  induction l with
  | nil => exact h3
  | cons n ns ih => exact h4 n ns (hp n) ih

/-- A string with a nonempty left part stays nonempty under append. -/
theorem append_ne_empty (s t : String) (h : s ≠ "") : s ++ t ≠ "" := by
  intro hc
  apply h
  rw [String.ext_iff] at hc ⊢
  rw [String.data_append] at hc
  exact (List.append_eq_nil.mp hc).1

/-- The guard `searchRequested` unpacked into its two conjuncts. -/
theorem requested_elim {apiKey : Option String} {q : String}
    (h : searchRequested apiKey q = true) :
    keyMissing apiKey = false ∧ queryEmpty q = false := by
  simp only [searchRequested, Bool.and_eq_true, Bool.not_eq_true'] at h
  exact h

/-- The `sources` loop equals a `filterMap` of the per-entry body. -/
theorem sourceLinesOf_eq_filterMap (l : List SearchResult) :
    sourceLinesOf l = l.filterMap bulletOf := by
  induction l with
  | nil => rfl
  | cons r rest ih =>
    cases hl : r.link with
    | none => simp [sourceLinesOf, bulletOf, hl, List.filterMap_cons, ih]
    | some lk =>
      cases ht : r.title with
      | none => simp [sourceLinesOf, bulletOf, hl, ht, List.filterMap_cons, ih]
      | some t => simp [sourceLinesOf, bulletOf, hl, ht, List.filterMap_cons, ih]

/-- Cleaning removes every element carrying a banned tag. -/
theorem cleanList_no_banned (tag : String) (htag : tag ∈ bannedTags) :
    ∀ l, hasTagList tag (cleanList l) = false := by
  have h := node_mutual_ind
    (fun n => ∀ m, cleanNode n = some m → hasTagNode tag m = false)
    (fun l => hasTagList tag (cleanList l) = false)
    (by intro s m hm; simp [cleanNode] at hm; subst hm; simp [hasTagNode])
    (by
      intro t cs ih m hm
      simp [cleanNode] at hm
      obtain ⟨htb, rfl⟩ := hm
      simp [hasTagNode]
      exact ⟨fun he => htb (he ▸ htag), ih⟩)
    (by simp [cleanList, hasTagList])
    (by
      intro n ns ihn ihns
      simp only [cleanList]
      cases hc : cleanNode n with
      | none => exact ihns
      | some m =>
        simp only [hasTagList, Bool.or_eq_false_iff]
        exact ⟨ihn m hc, ihns⟩)
  exact h.2

/-- Cleaning introduces no tag that was absent from the document. -/
theorem cleanList_tag_mono (tag : String) :
    ∀ l, hasTagList tag l = false → hasTagList tag (cleanList l) = false := by
  have h := node_mutual_ind
    (fun n => ∀ m, cleanNode n = some m → hasTagNode tag n = false → hasTagNode tag m = false)
    (fun l => hasTagList tag l = false → hasTagList tag (cleanList l) = false)
    (by intro s m hm _; simp [cleanNode] at hm; subst hm; simp [hasTagNode])
    (by
      intro t cs ih m hm hn
      simp [cleanNode] at hm
      obtain ⟨htb, rfl⟩ := hm
      simp only [hasTagNode, Bool.or_eq_false_iff] at hn ⊢
      exact ⟨hn.1, ih hn.2⟩)
    (by simp [cleanList, hasTagList])
    (by
      intro n ns ihn ihns hl
      simp only [hasTagList, Bool.or_eq_false_iff] at hl
      simp only [cleanList]
      cases hc : cleanNode n with
      | none => exact ihns hl.2
      | some m =>
        simp only [hasTagList, Bool.or_eq_false_iff]
        exact ⟨ihn m hc hl.1, ihns hl.2⟩)
  exact h.2

/-- A document with no `p` element yields no paragraphs. -/
theorem findPsList_eq_nil :
    ∀ l, hasTagList "p" l = false → findPsList l = [] := by
  have h := node_mutual_ind
    (fun n => hasTagNode "p" n = false → findPsNode n = [])
    (fun l => hasTagList "p" l = false → findPsList l = [])
    (by intro s _; simp [findPsNode])
    (by
      intro t cs ih hn
      simp only [hasTagNode, Bool.or_eq_false_iff] at hn
      have ht : ¬ t = "p" := by simpa using hn.1
      simp [findPsNode, ht, ih hn.2])
    (by simp [findPsList])
    (by
      intro n ns ihn ihns hl
      simp only [hasTagList, Bool.or_eq_false_iff] at hl
      simp [findPsList, ihn hl.1, ihns hl.2])
  exact h.2

/-- The function `pyStrip` fixes a constant run of a non-whitespace character. -/
theorem pyStrip_replicate (n : Nat) (c : Char) (h : pyIsSpace c = false) :
    pyStrip ⟨List.replicate n c⟩ = ⟨List.replicate n c⟩ := by
  have hdrop : List.dropWhile pyIsSpace (List.replicate n c) = List.replicate n c := by
    cases n with
    | zero => rfl
    | succ m =>
      rw [List.replicate_succ, List.dropWhile_cons, h]
      simp
  simp only [pyStrip, pyStripList]
  rw [hdrop, List.reverse_replicate, hdrop, List.reverse_replicate]

/-- Slicing to at most the length gives exactly that length. -/
theorem pySlice_length_of_le (s : String) (n : Nat) (h : n ≤ s.length) :
    (pySlice s n).length = n := by
  show (s.data.take n).length = n
  rw [List.length_take]
  exact Nat.min_eq_left h

/-- A slice is a prefix: the remainder is the dropped suffix. -/
theorem pySlice_append_drop (s : String) (n : Nat) :
    s = pySlice s n ++ ⟨s.data.drop n⟩ := by
  rw [String.ext_iff, String.data_append]
  exact (List.take_append_drop n s.data).symm

/-- Slicing past the length returns the whole string. -/
theorem pySlice_of_le (s : String) (n : Nat) (h : s.length ≤ n) :
    pySlice s n = s := by
  rw [String.ext_iff]
  exact List.take_of_length_le h

/-- The extraction pipeline on `longDoc` produces exactly `longText`. -/
theorem extractText_longDoc : extractText longDoc = longText := by
  show joinWith " " ((findPsList (cleanList longDoc)).map getTextNode) = longText
  have h1 : cleanList longDoc = longDoc := by rfl
  have h2 : findPsList longDoc = [Node.elem "p" [Node.text longText]] := by rfl
  rw [h1, h2]
  show getTextNode (Node.elem "p" [Node.text longText]) = longText
  show longText ++ "" = longText
  cases hlt : longText with
  | mk l =>
    show String.mk (l ++ []) = String.mk l
    rw [List.append_nil]

/-! ## Claim theorems -/

/-- C1: the auth gate grants access iff the presented bearer token equals
the configured secret; on a match it returns a grant carrying the client id
`"unknown"`, an empty scope list and no expiry, and on a mismatch it
returns `none` with no further detail. -/
theorem C1_auth_gate :
    ∀ secret t : String,
      (load_access_token secret t =
        some { token := t, client_id := "unknown", scopes := [], expires_at := none } ↔
        t = secret) ∧
      (load_access_token secret t = none ↔ t ≠ secret) := by
  intro secret t
  by_cases h : t = secret
  · subst h
    simp [load_access_token]
  · simp [load_access_token, h]

/-- C7: for every query that is empty or whitespace-only (trimmed before
the emptiness check), `perform_web_research` issues no outbound request and
returns an error message (the configuration error when the key is missing,
the empty-query error otherwise). -/
theorem C7_empty_query :
    ∀ apiKey q out, queryEmpty q = true →
      (perform_web_research apiKey q out).2 = false ∧
      ((perform_web_research apiKey q out).1.message = "Error: SERPER_API_KEY is not set." ∨
        (perform_web_research apiKey q out).1.message = "Error: Search query cannot be empty.") := by
  intro apiKey q out hq
  by_cases hk : keyMissing apiKey = true
  · simp [perform_web_research, hk]
  · simp only [Bool.not_eq_true] at hk
    simp [perform_web_research, hk, hq]

/-- C7 witness: the whitespace-only query `"   "` with a configured key
issues no request and yields the empty-query error. -/
theorem C7_empty_query_witness :
    queryEmpty "   " = true ∧
    (perform_web_research (some "k") "   " (.success ⟨none⟩)).2 = false ∧
    ((perform_web_research (some "k") "   " (.success ⟨none⟩)).1.message =
        "Error: SERPER_API_KEY is not set." ∨
      (perform_web_research (some "k") "   " (.success ⟨none⟩)).1.message =
        "Error: Search query cannot be empty.") :=
  ⟨by decide, C7_empty_query (some "k") "   " (.success ⟨none⟩) (by decide)⟩

/-- C8: whenever the search API key is not configured, every call of
`perform_web_research` returns the configuration-error dictionary and
issues no outbound request, whatever the query. -/
theorem C8_missing_key :
    ∀ apiKey q out, keyMissing apiKey = true →
      perform_web_research apiKey q out =
        (⟨"Error: SERPER_API_KEY is not set.", none⟩, false) := by
  intro apiKey q out hk
  simp [perform_web_research, hk]

/-- C8 witness: with the key unset (`none`), the query `"anything"` yields
the configuration error and no request. -/
theorem C8_missing_key_witness :
    keyMissing none = true ∧
    perform_web_research none "anything" (.success ⟨none⟩) =
      (⟨"Error: SERPER_API_KEY is not set.", none⟩, false) :=
  ⟨by decide, C8_missing_key none "anything" (.success ⟨none⟩) (by decide)⟩

/-- C9: when the request is issued and the provider's `organic` key is
absent or its array empty, the tool returns `"No results found for
'<query>'."` with the original untrimmed query interpolated, and no
results list. -/
theorem C9_no_results :
    ∀ apiKey q data, searchRequested apiKey q = true → organicMissing data = true →
      perform_web_research apiKey q (.success data) = (⟨noResultsMsg q, none⟩, true) ∧
      noResultsMsg q = "No results found for \x27" ++ q ++ "\x27." := by
  intro apiKey q data hreq hmiss
  obtain ⟨hk, hq⟩ := requested_elim hreq
  refine ⟨?_, rfl⟩
  cases horg : data.organic with
  | none => simp [perform_web_research, hk, hq, horg]
  | some l =>
    cases l with
    | nil => simp [perform_web_research, hk, hq, horg]
    | cons r rest =>
      simp [organicMissing, horg] at hmiss

/-- C9 witness: the untrimmed query `" q "` with `organic = []` yields
exactly `"No results found for ' q '."`. -/
theorem C9_no_results_witness :
    searchRequested (some "k") " q " = true ∧
    organicMissing ⟨some []⟩ = true ∧
    perform_web_research (some "k") " q " (.success ⟨some []⟩) =
      (⟨noResultsMsg " q ", none⟩, true) ∧
    noResultsMsg " q " = "No results found for \x27 q \x27." :=
  ⟨by decide, by decide,
    C9_no_results (some "k") " q " ⟨some []⟩ (by decide) (by decide)⟩

/-- C10: when the key is missing and the query is simultaneously empty or
whitespace-only, the configuration error wins: the configuration check runs
before the input-emptiness check. -/
theorem C10_config_check_first :
    ∀ apiKey q out, keyMissing apiKey = true → queryEmpty q = true →
      (perform_web_research apiKey q out).1.message = "Error: SERPER_API_KEY is not set." ∧
      (perform_web_research apiKey q out).1.message ≠ "Error: Search query cannot be empty." := by
  intro apiKey q out hk _
  simp [perform_web_research, hk]

/-- C10 witness: key unset and empty query give the configuration error,
not the empty-query error. -/
theorem C10_config_check_first_witness :
    keyMissing none = true ∧ queryEmpty "" = true ∧
    (perform_web_research none "" (.success ⟨none⟩)).1.message =
      "Error: SERPER_API_KEY is not set." ∧
    (perform_web_research none "" (.success ⟨none⟩)).1.message ≠
      "Error: Search query cannot be empty." :=
  ⟨by decide, by decide,
    C10_config_check_first none "" (.success ⟨none⟩) (by decide) (by decide)⟩

/-- C2: both tools are total functions of their input and modeled upstream
outcome (no exception reaches the transport layer), their result always
carries a non-empty `message`; an HTTP-status error from the search
provider yields a message embedding the status code and response body, and
any other exception yields a message embedding the error text. -/
theorem C2_structured_errors :
    (∀ apiKey q out, (perform_web_research apiKey q out).1.message ≠ "") ∧
    (∀ out, (scrape_webpage_content out).message ≠ "") ∧
    (∀ apiKey q st body, searchRequested apiKey q = true →
      (perform_web_research apiKey q (.statusExc st body)).1 =
        ⟨"Search API Error (" ++ toString st ++ "): " ++ body, none⟩) ∧
    (∀ apiKey q e, searchRequested apiKey q = true →
      (perform_web_research apiKey q (.otherExc e)).1 =
        ⟨"An unexpected search error occurred: " ++ e, none⟩) ∧
    (∀ e, scrape_webpage_content (.requestExc e) = ⟨"Network error: " ++ e, none⟩) ∧
    (∀ e, scrape_webpage_content (.otherExc e) = ⟨"Scrape error: " ++ e, none⟩) := by
  refine ⟨?_, ?_, ?_, ?_, fun e => rfl, fun e => rfl⟩
  · intro apiKey q out
    by_cases hk : keyMissing apiKey = true
    · rw [show (perform_web_research apiKey q out).1.message =
          "Error: SERPER_API_KEY is not set." from by simp [perform_web_research, hk]]
      decide
    · simp only [Bool.not_eq_true] at hk
      by_cases hq : queryEmpty q = true
      · rw [show (perform_web_research apiKey q out).1.message =
            "Error: Search query cannot be empty." from by simp [perform_web_research, hk, hq]]
        decide
      · simp only [Bool.not_eq_true] at hq
        cases out with
        | statusExc st body =>
          rw [show (perform_web_research apiKey q (.statusExc st body)).1.message =
              "Search API Error (" ++ toString st ++ "): " ++ body from by
                simp [perform_web_research, hk, hq]]
          repeat apply append_ne_empty
          decide
        | otherExc e =>
          rw [show (perform_web_research apiKey q (.otherExc e)).1.message =
              "An unexpected search error occurred: " ++ e from by
                simp [perform_web_research, hk, hq]]
          apply append_ne_empty
          decide
        | success data =>
          cases horg : data.organic with
          | none =>
            rw [show (perform_web_research apiKey q (.success data)).1.message =
                noResultsMsg q from by simp [perform_web_research, hk, hq, horg]]
            unfold noResultsMsg
            repeat apply append_ne_empty
            decide
          | some l =>
            cases l with
            | nil =>
              rw [show (perform_web_research apiKey q (.success data)).1.message =
                  noResultsMsg q from by simp [perform_web_research, hk, hq, horg]]
              unfold noResultsMsg
              repeat apply append_ne_empty
              decide
            | cons r0 rest =>
              rw [show (perform_web_research apiKey q (.success data)).1.message =
                  summaryOf q r0 (r0 :: rest) from by
                    simp [perform_web_research, hk, hq, horg]]
              unfold summaryOf
              repeat apply append_ne_empty
              decide
  · intro out
    cases out with
    | requestExc e => apply append_ne_empty; decide
    | otherExc e => apply append_ne_empty; decide
    | success ct doc =>
      by_cases hct : contentTypeOk (pyLower ct) = true
      · by_cases htx : pyStrip (extractText doc) = ""
        · rw [show (scrape_webpage_content (.success ct doc)).message =
              "Visited page but found no main text content." from by
                simp [scrape_webpage_content, hct, htx]]
          decide
        · rw [show (scrape_webpage_content (.success ct doc)).message =
              "Extracted text:" from by simp [scrape_webpage_content, hct, htx]]
          decide
      · simp only [Bool.not_eq_true] at hct
        rw [show (scrape_webpage_content (.success ct doc)).message =
            "Error: URL points to \x27" ++ pyLower ct ++ "\x27, not a webpage." from by
              simp [scrape_webpage_content, hct]]
        repeat apply append_ne_empty
        decide
  · intro apiKey q st body hreq
    obtain ⟨hk, hq⟩ := requested_elim hreq
    simp [perform_web_research, hk, hq]
  · intro apiKey q e hreq
    obtain ⟨hk, hq⟩ := requested_elim hreq
    simp [perform_web_research, hk, hq]

/-- C2 witness: with a configured key and the query `"q"`, a 500 status
error with body `"oops"` and a generic exception `"boom"` produce the
prescribed messages. -/
theorem C2_structured_errors_witness :
    searchRequested (some "k") "q" = true ∧
    (perform_web_research (some "k") "q" (.statusExc 500 "oops")).1 =
      ⟨"Search API Error (" ++ toString 500 ++ "): " ++ "oops", none⟩ ∧
    (perform_web_research (some "k") "q" (.otherExc "boom")).1 =
      ⟨"An unexpected search error occurred: " ++ "boom", none⟩ :=
  ⟨by decide, C2_structured_errors.2.2.1 (some "k") "q" 500 "oops" (by decide),
    C2_structured_errors.2.2.2.1 (some "k") "q" "boom" (by decide)⟩

/-- C3 counterexample: on the host `awww.foo.com` — which contains a
non-leading `www.` — the code's `replace('www.', '')` produces the label
`"Afoo"` while the claim's "strip a leading www." derivation produces
`"Awww"`, so the composed message differs from the claim's description. -/
theorem C3_counterexample :
    siteOf "https://awww.foo.com/x" = "Afoo" ∧
    claimSiteOf "https://awww.foo.com/x" = "Awww" ∧
    (perform_web_research (some "k") "q" (.success ⟨some [c3CounterResult]⟩)).1.message ≠
      claimSummaryOf "q" c3CounterResult [c3CounterResult] := by
  decide

/-- C3 (amended): on a non-empty organic list the message is the header
naming the query, the first result's snippet (or the fallback), the
separator, and one bullet per result in provider order, where the site
label removes EVERY occurrence of `www.` from the link's network-location
component before taking the first dot-delimited label and title-casing it;
results whose `link` or `title` is missing are skipped.  On the spec's
example the labels are `Foo` and `Bar` and the lead snippet is `S1`. -/
theorem C3_summary_message :
    (∀ apiKey q data r0 rest, searchRequested apiKey q = true →
      data.organic = some (r0 :: rest) →
      (perform_web_research apiKey q (.success data)).1 =
        ⟨"Based on my research for **\x27" ++ q ++ "\x27**, here is a summary:\n\n" ++
            leadSnippet r0 ++ "\n\n--- \n### Where to Learn More\nTop sources:\n" ++
            joinWith "\n" ((r0 :: rest).filterMap bulletOf),
          some (r0 :: rest)⟩) ∧
    sourceLinesOf c3Organic =
      ["- **A** (found on Foo)", "- **B** (found on Bar)"] ∧
    leadSnippet ⟨some "A", some "https://www.foo.com/x", some "S1"⟩ = "S1" := by
  refine ⟨?_, by decide, rfl⟩
  intro apiKey q data r0 rest hreq horg
  obtain ⟨hk, hq⟩ := requested_elim hreq
  simp [perform_web_research, hk, hq, horg, summaryOf, sourceLinesOf_eq_filterMap]

/-- C3 witness: the spec's example organic list produces the composed
message with labels `Foo` and `Bar` and lead snippet `S1`. -/
theorem C3_summary_message_witness :
    searchRequested (some "k") "q" = true ∧
    (perform_web_research (some "k") "q" (.success ⟨some c3Organic⟩)).1 =
      ⟨"Based on my research for **\x27" ++ "q" ++ "\x27**, here is a summary:\n\n" ++
          leadSnippet ⟨some "A", some "https://www.foo.com/x", some "S1"⟩ ++
          "\n\n--- \n### Where to Learn More\nTop sources:\n" ++
          joinWith "\n" ((⟨some "A", some "https://www.foo.com/x", some "S1"⟩ ::
            [(⟨some "B", some "https://bar.org/y", some "S2"⟩ : SearchResult)]).filterMap bulletOf),
        some (⟨some "A", some "https://www.foo.com/x", some "S1"⟩ ::
          [(⟨some "B", some "https://bar.org/y", some "S2"⟩ : SearchResult)])⟩ :=
  ⟨by decide,
    C3_summary_message.1 (some "k") "q" ⟨some c3Organic⟩
      ⟨some "A", some "https://www.foo.com/x", some "S1"⟩
      [⟨some "B", some "https://bar.org/y", some "S2"⟩]
      (by decide) rfl⟩

/-- C5 counterexample: for the declared content type `Application/PDF` the
code interpolates the LOWER-CASED value `application/pdf`, not the declared
value verbatim as the claim states. -/
theorem C5_counterexample :
    scrape_webpage_content (.success "Application/PDF" []) =
      ⟨"Error: URL points to \x27application/pdf\x27, not a webpage.", none⟩ ∧
    "Error: URL points to \x27application/pdf\x27, not a webpage." ≠
      "Error: URL points to \x27Application/PDF\x27, not a webpage." := by
  decide

/-- C5 (amended): for every successfully fetched response whose lower-cased
declared content type contains neither `text/html` nor `text/plain`,
the tool returns the content-type error with the LOWER-CASED declared
content type interpolated, and the result does not depend on the response
body (the body is never parsed). -/
theorem C5_content_type_gate :
    ∀ ct doc, contentTypeOk (pyLower ct) = false →
      scrape_webpage_content (.success ct doc) =
        ⟨"Error: URL points to \x27" ++ pyLower ct ++ "\x27, not a webpage.", none⟩ ∧
      (∀ doc2, scrape_webpage_content (.success ct doc) =
        scrape_webpage_content (.success ct doc2)) := by
  intro ct doc hct
  constructor
  · simp [scrape_webpage_content, hct]
  · intro doc2
    simp [scrape_webpage_content, hct]

/-- C5 witness: `application/pdf` triggers the gate and the interpolated
message. -/
theorem C5_content_type_gate_witness :
    contentTypeOk (pyLower "application/pdf") = false ∧
    scrape_webpage_content (.success "application/pdf" []) =
      ⟨"Error: URL points to \x27" ++ pyLower "application/pdf" ++ "\x27, not a webpage.", none⟩ :=
  ⟨by decide, (C5_content_type_gate "application/pdf" [] (by decide)).1⟩

/-- C6: cleaning removes every script/style/nav/footer element before
extraction (no banned tag survives), the spec's example extracts exactly
`"Hello World"` with the script text excluded, and a page with no `<p>`
element yields the no-content message. -/
theorem C6_extraction :
    (∀ doc tag, tag ∈ bannedTags → hasTagList tag (cleanList doc) = false) ∧
    extractText c6ExampleDoc = "Hello World" ∧
    scrape_webpage_content (.success "text/html" c6ExampleDoc) =
      ⟨"Extracted text:", some "Hello World"⟩ ∧
    (∀ ct doc, contentTypeOk (pyLower ct) = true → hasTagList "p" doc = false →
      scrape_webpage_content (.success ct doc) =
        ⟨"Visited page but found no main text content.", none⟩) := by
  refine ⟨fun doc tag ht => cleanList_no_banned tag ht doc, by decide, by decide, ?_⟩
  intro ct doc hct hp
  have h1 : hasTagList "p" (cleanList doc) = false := cleanList_tag_mono "p" doc hp
  have h2 : findPsList (cleanList doc) = [] := findPsList_eq_nil (cleanList doc) h1
  have h3 : extractText doc = "" := by simp [extractText, h2, joinWith]
  have h4 : pyStrip (extractText doc) = "" := by rw [h3]; rfl
  simp [scrape_webpage_content, hct, h4]

/-- C6 witness: the example document keeps no `script` after cleaning, and
a `<p>`-free page returns the no-content message. -/
theorem C6_extraction_witness :
    ("script" ∈ bannedTags) ∧
    hasTagList "script" (cleanList c6ExampleDoc) = false ∧
    contentTypeOk (pyLower "text/html") = true ∧
    hasTagList "p" noParagraphDoc = false ∧
    scrape_webpage_content (.success "text/html" noParagraphDoc) =
      ⟨"Visited page but found no main text content.", none⟩ :=
  ⟨by decide, C6_extraction.1 c6ExampleDoc "script" (by decide), by decide, by decide,
    C6_extraction.2.2.2 "text/html" noParagraphDoc (by decide) (by decide)⟩

/-- C4: when the trimmed extracted text exceeds the 5000-character cap, the
returned text has length exactly 5000 and is a prefix of the full trimmed
text; shorter non-empty texts are returned in full. -/
theorem C4_truncation :
    ∀ ct doc, contentTypeOk (pyLower ct) = true →
      (5000 < (pyStrip (extractText doc)).length →
        scrape_webpage_content (.success ct doc) =
          ⟨"Extracted text:", some (pySlice (pyStrip (extractText doc)) 5000)⟩ ∧
        (pySlice (pyStrip (extractText doc)) 5000).length = 5000 ∧
        ∃ rest, pyStrip (extractText doc) =
          pySlice (pyStrip (extractText doc)) 5000 ++ rest) ∧
      ((pyStrip (extractText doc)).length ≤ 5000 → pyStrip (extractText doc) ≠ "" →
        scrape_webpage_content (.success ct doc) =
          ⟨"Extracted text:", some (pyStrip (extractText doc))⟩) := by
  intro ct doc hct
  constructor
  · intro hlen
    have hne : pyStrip (extractText doc) ≠ "" := by
      intro h0
      rw [h0] at hlen
      simp [String.length] at hlen
    refine ⟨by simp [scrape_webpage_content, hct, hne], ?_, ?_⟩
    · exact pySlice_length_of_le (pyStrip (extractText doc)) 5000 (Nat.le_of_lt hlen)
    · exact ⟨⟨(pyStrip (extractText doc)).data.drop 5000⟩,
        pySlice_append_drop (pyStrip (extractText doc)) 5000⟩
  · intro hle hne
    have hsl : pySlice (pyStrip (extractText doc)) 5000 = pyStrip (extractText doc) :=
      pySlice_of_le (pyStrip (extractText doc)) 5000 hle
    rw [show scrape_webpage_content (.success ct doc) =
        ⟨"Extracted text:", some (pySlice (pyStrip (extractText doc)) 5000)⟩ from by
          simp [scrape_webpage_content, hct, hne]]
    rw [hsl]

/-- C4 witness: a page whose paragraph text is 5001 characters of `a` is
returned with exactly 5000 characters forming a prefix of the full text. -/
theorem C4_truncation_witness :
    contentTypeOk (pyLower "text/html") = true ∧
    5000 < (pyStrip (extractText longDoc)).length ∧
    (scrape_webpage_content (.success "text/html" longDoc) =
        ⟨"Extracted text:", some (pySlice (pyStrip (extractText longDoc)) 5000)⟩ ∧
      (pySlice (pyStrip (extractText longDoc)) 5000).length = 5000 ∧
      ∃ rest, pyStrip (extractText longDoc) =
        pySlice (pyStrip (extractText longDoc)) 5000 ++ rest) := by
  have hstrip : pyStrip longText = longText :=
    pyStrip_replicate 5001 'a' (by decide)
  have hlen : 5000 < (pyStrip (extractText longDoc)).length := by
    rw [extractText_longDoc, hstrip]
    show 5000 < (List.replicate 5001 'a').length
    rw [List.length_replicate]
    omega
  exact ⟨by decide, hlen, (C4_truncation "text/html" longDoc (by decide)).1 hlen⟩

end WebResearch
